import Mathlib

/-!
Shallow embedding of the diveTrader trading backend core, verified against its
natural-language specification.

Conventions of the embedding:
* Python floats that hold money, prices and percentages are modelled as `ℚ`
  (exact arithmetic; the code never relies on float rounding).
* Python `int(x)` truncation toward zero is `pyInt`.
* Database state read by a service call is packaged into an explicit record
  (e.g. `RiskDb`) passed to the embedded function.
* A Python function body wrapped in `try/except` that returns a fallback value
  on an exception is embedded with the exceptional branch made explicit
  (e.g. division by a zero `entry_price` in `calculate_position_size`).
-/

/-- Python `int()` truncation toward zero on a rational. -/
def pyInt (q : ℚ) : ℤ := if 0 ≤ q then ⌊q⌋ else ⌈q⌉

theorem pyInt_of_nonneg {q : ℚ} (h : 0 ≤ q) : pyInt q = ⌊q⌋ := by
  simp [pyInt, h]

theorem pyInt_nonneg {q : ℚ} (h : 0 ≤ q) : 0 ≤ pyInt q := by
  rw [pyInt_of_nonneg h]
  exact Int.le_floor.mpr (by exact_mod_cast h)

theorem pyInt_le {q : ℚ} (h : 0 ≤ q) : (pyInt q : ℚ) ≤ q := by
  rw [pyInt_of_nonneg h]
  exact Int.floor_le q

/-! ## Risk management service (`services/risk_management_service.py`)

`RiskAlert` carries an alert type and a severity; the human-readable message
and timestamp are irrelevant to the verified properties and omitted. -/

/-- Severities of a `RiskAlert` (`"low" | "medium" | "high" | "critical"`). -/
inductive Severity
  | low
  | medium
  | high
  | critical
deriving DecidableEq

/-- Alert types produced by `RiskManagementService`. -/
inductive AlertType
  | drawdown
  | daily_loss
  | position_size
  | position_sizing
  | concentration
  | sector_concentration
  | error
deriving DecidableEq

/-- A risk alert (`RiskAlert` value object, reduced to type and severity). -/
structure RiskAlert where
  alert_type : AlertType
  severity : Severity
deriving DecidableEq

/-- Risk limits after merging strategy config over the library defaults
(`get_strategy_risk_limits`); the defaults are
`max_daily_loss = 5`, `max_drawdown = 15`, `max_position_size = 10`,
`max_sector_exposure = 50`. -/
structure RiskLimits where
  max_daily_loss : ℚ
  max_drawdown : ℚ
  max_position_size : ℚ
  max_sector_exposure : ℚ
deriving DecidableEq

/-- The library-wide default risk limits of `RiskManagementService.__init__`. -/
def default_limits : RiskLimits :=
  { max_daily_loss := 5, max_drawdown := 15, max_position_size := 10,
    max_sector_exposure := 50 }

/-- The slice of database state read by the risk-management calls for one
strategy: its capital fields, the maximum `PerformanceMetric.total_value`
recorded (`none` when no metric rows exist), its open positions as
`(symbol, market_value)` pairs, today's summed realized P&L over filled
trades, and the configured `risk_per_trade` percentage. -/
structure RiskDb where
  current_capital : ℚ
  initial_capital : ℚ
  peak_metric : Option ℚ
  positions : List (String × ℚ)
  daily_pnl : ℚ
  risk_per_trade : ℚ
deriving DecidableEq

/-- `get_peak_capital`: the maximum recorded `total_value`; Python's
`if peak:` treats a recorded `0.0` as falsy, falling back to the strategy's
initial capital, as does the absence of any metric row. -/
def get_peak_capital (st : RiskDb) : ℚ :=
  match st.peak_metric with
  | some p => if p = 0 then st.initial_capital else p
  | none => st.initial_capital

/-- `calculate_portfolio_value`: current capital plus the market value of all
open positions. -/
def calculate_portfolio_value (st : RiskDb) : ℚ :=
  st.current_capital + (st.positions.map Prod.snd).sum

/-- `calculate_position_size`: risk-based sizing with a capital-fraction cap
and a portfolio-percentage clamp.  A zero `entry_price` makes the Python code
raise `ZeroDivisionError` at the `max_shares_by_capital` line, which the
enclosing `except` turns into `(0, [critical error alert])`. -/
def calculate_position_size (st : RiskDb) (limits : RiskLimits)
    (entry_price stop_loss_price : ℚ) : ℤ × List RiskAlert :=
  if entry_price = 0 then
    (0, [⟨AlertType.error, Severity.critical⟩])
  else
    let risk_amount := st.current_capital * (st.risk_per_trade / 100)
    let stage1 : ℤ × List RiskAlert :=
      if stop_loss_price > 0 ∧ entry_price > 0 then
        let risk_per_share := |entry_price - stop_loss_price|
        if risk_per_share > 0 then
          (pyInt (risk_amount / risk_per_share), [])
        else
          (0, [⟨AlertType.position_sizing, Severity.high⟩])
      else
        if entry_price > 0 then
          (pyInt (st.current_capital * (limits.max_position_size / 100) / entry_price), [])
        else
          (0, [])
    let max_shares_by_capital :=
      pyInt (st.current_capital * limits.max_position_size / 100 / entry_price)
    let position_size := min stage1.1 max_shares_by_capital
    if position_size < 1 then
      (0, stage1.2 ++ [⟨AlertType.position_sizing, Severity.medium⟩])
    else
      let portfolio_value := calculate_portfolio_value st
      let position_value := (position_size : ℚ) * entry_price
      let position_percentage :=
        if portfolio_value > 0 then position_value / portfolio_value * 100 else 0
      if position_percentage > limits.max_position_size then
        (pyInt (limits.max_position_size / 100 * portfolio_value / entry_price),
         stage1.2 ++ [⟨AlertType.position_size, Severity.high⟩])
      else
        (position_size, stage1.2)

/-- `check_drawdown_limits`: drawdown from peak capital, tiered at 100%/80%/60%
of the configured `max_drawdown` limit. -/
def check_drawdown_limits (st : RiskDb) (limits : RiskLimits) : List RiskAlert :=
  let peak_capital := get_peak_capital st
  if peak_capital > 0 then
    let drawdown_percent := (peak_capital - st.current_capital) / peak_capital * 100
    if drawdown_percent ≥ limits.max_drawdown then
      [⟨AlertType.drawdown, Severity.critical⟩]
    else if drawdown_percent ≥ limits.max_drawdown * (8 / 10) then
      [⟨AlertType.drawdown, Severity.high⟩]
    else if drawdown_percent ≥ limits.max_drawdown * (6 / 10) then
      [⟨AlertType.drawdown, Severity.medium⟩]
    else []
  else []

/-- `check_daily_loss_limits`: today's realized loss as a percentage of current
capital, tiered at 100%/80% of `max_daily_loss` (there is no 60% tier in the
code).  A zero `current_capital` makes Python raise `ZeroDivisionError`, which
the enclosing `except` turns into a single medium error alert. -/
def check_daily_loss_limits (st : RiskDb) (limits : RiskLimits) : List RiskAlert :=
  if st.daily_pnl < 0 then
    if st.current_capital = 0 then
      [⟨AlertType.error, Severity.medium⟩]
    else
      let loss_percent := |st.daily_pnl / st.current_capital| * 100
      if loss_percent ≥ limits.max_daily_loss then
        [⟨AlertType.daily_loss, Severity.critical⟩]
      else if loss_percent ≥ limits.max_daily_loss * (8 / 10) then
        [⟨AlertType.daily_loss, Severity.high⟩]
      else []
  else []

/-- Symbols the concentration check counts as the tech sector. -/
def tech_symbols : List String :=
  ["AAPL", "MSFT", "GOOGL", "AMZN", "META", "NVDA", "TSLA"]

/-- `check_position_concentration`: per-position and tech-sector concentration
alerts (`high` and `medium` severity respectively; never `critical`). -/
def check_position_concentration (st : RiskDb) (limits : RiskLimits) :
    List RiskAlert :=
  if st.positions.isEmpty then []
  else
    let total_value := (st.positions.map Prod.snd).sum
    let position_alerts := st.positions.filterMap (fun pos =>
      if total_value > 0 ∧ pos.2 / total_value * 100 > limits.max_position_size then
        some ⟨AlertType.concentration, Severity.high⟩
      else none)
    let tech_exposure :=
      ((st.positions.filter (fun pos => pos.1 ∈ tech_symbols)).map Prod.snd).sum
    let sector_alerts :=
      if total_value > 0 ∧ tech_exposure / total_value * 100 > limits.max_sector_exposure then
        [⟨AlertType.sector_concentration, Severity.medium⟩]
      else []
    position_alerts ++ sector_alerts

/-- `check_strategy_halt_conditions`: all three independent checks combined. -/
def check_strategy_halt_conditions (st : RiskDb) (limits : RiskLimits) :
    List RiskAlert :=
  check_drawdown_limits st limits ++ check_daily_loss_limits st limits ++
    check_position_concentration st limits

/-- Order side of a proposed trade. -/
inductive OrderSide
  | buy
  | sell
deriving DecidableEq

/-- `validate_trade`: halt-condition check, BUY sizing check against the
recomputed safe maximum, then daily-loss and drawdown blocks. -/
def validate_trade (st : RiskDb) (limits : RiskLimits) (side : OrderSide)
    (quantity : ℤ) (price : ℚ) : Bool × List RiskAlert :=
  let halt_alerts := check_strategy_halt_conditions st limits
  if halt_alerts.any (fun a => a.severity = Severity.critical) then
    (false, halt_alerts)
  else
    let sized := calculate_position_size st limits price 0
    let alerts1 := if side = OrderSide.buy then sized.2 else []
    if side = OrderSide.buy ∧ quantity > sized.1 then
      (false, alerts1 ++ [⟨AlertType.position_size, Severity.high⟩])
    else
      let daily_alerts := check_daily_loss_limits st limits
      let alerts2 := alerts1 ++ daily_alerts
      if daily_alerts.any (fun a =>
          a.alert_type = AlertType.daily_loss ∧ a.severity = Severity.critical) then
        (false, alerts2)
      else
        let drawdown_alerts := check_drawdown_limits st limits
        let alerts3 := alerts2 ++ drawdown_alerts
        if drawdown_alerts.any (fun a =>
            a.alert_type = AlertType.drawdown ∧ a.severity = Severity.critical) then
          (false, alerts3)
        else
          (true, alerts3)

/-! ## Strategy settings (`strategies/base_strategy.py`)

Settings are a per-strategy key/value bag; the settings store deserializes
values to their declared type, so a cached value is an integer, float or
boolean.  The typed getters coerce with Python semantics. -/

/-- A typed setting value as held in the strategy's settings cache. -/
inductive SettingVal
  | i (n : ℤ)
  | f (q : ℚ)
  | b (v : Bool)
deriving DecidableEq

/-- The settings cache: association list from key to value. -/
def SettingsBag := List (String × SettingVal)

instance : DecidableEq SettingsBag := by
  unfold SettingsBag
  infer_instance

/-- `get_setting`: dictionary lookup. -/
def get_setting (bag : SettingsBag) (key : String) : Option SettingVal :=
  (List.find? (fun kv => kv.1 = key) bag).map Prod.snd

/-- `get_int_setting`: Python `int(value)` with a default on a missing key. -/
def get_int_setting (bag : SettingsBag) (key : String) (default : ℤ) : ℤ :=
  match get_setting bag key with
  | some (SettingVal.i n) => n
  | some (SettingVal.f q) => pyInt q
  | some (SettingVal.b v) => if v then 1 else 0
  | none => default

/-- `get_float_setting`: Python `float(value)` with a default. -/
def get_float_setting (bag : SettingsBag) (key : String) (default : ℚ) : ℚ :=
  match get_setting bag key with
  | some (SettingVal.i n) => (n : ℚ)
  | some (SettingVal.f q) => q
  | some (SettingVal.b v) => if v then 1 else 0
  | none => default

/-- `get_bool_setting`: Python truthiness via `bool(int(value))` for numerics. -/
def get_bool_setting (bag : SettingsBag) (key : String) (default : Bool) : Bool :=
  match get_setting bag key with
  | some (SettingVal.b v) => v
  | some (SettingVal.i n) => n ≠ 0
  | some (SettingVal.f q) => pyInt q ≠ 0
  | none => default

/-! ## BTC scalping strategy
(`strategies/btc_scalping/btc_scalping_strategy.py`) -/

/-- One OHLCV bar as the strategy consumes it (timestamp in seconds). -/
structure Bar where
  ts : ℕ
  openP : ℚ
  high : ℚ
  low : ℚ
  close : ℚ
  volume : ℚ
deriving DecidableEq

/-- The pandas `Series.rolling(window=k).mean()` value at index `i` of the
series `closes`: the mean of `closes[i-k+1..i]` when at least `k` values are
available, `NaN` (here `none`) otherwise; a non-positive window raises in
pandas, embedded as `none`. -/
def maAt (k : ℤ) (closes : List ℚ) (i : ℕ) : Option ℚ :=
  if k ≤ 0 then none
  else if i + 1 < k.toNat ∨ closes.length ≤ i then none
  else some ((((closes.take (i + 1)).drop (i + 1 - k.toNat)).sum) / (k : ℚ))

/-- A tracked open position of the live strategy (`self.current_position`). -/
structure ScalpPosition where
  side : String
  entry_price : ℚ
  quantity : ℚ
  timestamp : ℕ
  take_profit_price : ℚ
  stop_loss_price : ℚ
deriving DecidableEq

/-- The mutable state of one `BTCScalpingStrategy` instance. -/
structure BtcState where
  is_running : Bool
  current_position : Option ScalpPosition
  last_signal_time : Option ℕ
  settings : SettingsBag
deriving DecidableEq

/-- The state of a freshly constructed instance (`__init__`): not running,
no tracked position, no signal timestamp. -/
def btc_init (settings : SettingsBag) : BtcState :=
  { is_running := false, current_position := none, last_signal_time := none,
    settings := settings }

/-- `validate_settings`: positive position size and take-profit/stop-loss
percentages, positive MA windows with short strictly below long. -/
def validate_settings (bag : SettingsBag) : Bool :=
  let position_size := get_float_setting bag "position_size" (1 / 1000)
  if position_size ≤ 0 then false
  else
    let take_profit_pct := get_float_setting bag "take_profit_pct" (2 / 1000)
    if take_profit_pct ≤ 0 then false
    else
      let stop_loss_pct := get_float_setting bag "stop_loss_pct" (1 / 1000)
      if stop_loss_pct ≤ 0 then false
      else
        let short_ma := get_int_setting bag "short_ma_periods" 3
        let long_ma := get_int_setting bag "long_ma_periods" 5
        if short_ma ≤ 0 ∨ long_ma ≤ 0 ∨ short_ma ≥ long_ma then false
        else true

/-- `start`: validates settings; on success sets `is_running`, on failure
returns `False` leaving the state untouched. -/
def btc_start (s : BtcState) : Bool × BtcState :=
  if validate_settings s.settings then
    (true, { s with is_running := true })
  else
    (false, s)

/-- `_get_traditional_signal`: rolling MAs over the fetched bars, a volume
check with the paper-trading fallback, the hardcoded 300-second cooldown
(Python's `timedelta.seconds` is the gap modulo 86400), then the
level conditions short MA > long MA and close > short MA.  Exceptions
(non-positive rolling window, empty frame) return `None` via the `except`. -/
def get_traditional_signal (bag : SettingsBag) (bars : List Bar)
    (last_signal_time : Option ℕ) (now : ℕ) : Option String :=
  let short_periods := get_int_setting bag "short_ma_periods" 3
  let long_periods := get_int_setting bag "long_ma_periods" 5
  if short_periods ≤ 0 ∨ long_periods ≤ 0 then none
  else
    match bars.getLast? with
    | none => none
    | some latest =>
      let closes := bars.map Bar.close
      let short_ma := maAt short_periods closes (bars.length - 1)
      let long_ma := maAt long_periods closes (bars.length - 1)
      let actual_volume := latest.volume
      let paper_trading_mode := get_bool_setting bag "paper_trading_mode" true
      let fallback_volume := get_int_setting bag "fallback_volume" 10000
      let min_volume := get_int_setting bag "min_volume" 1000
      let effective_volume :=
        if paper_trading_mode ∧ actual_volume = 0 then (fallback_volume : ℚ)
        else actual_volume
      if effective_volume < (min_volume : ℚ) ∧
          ¬(actual_volume = 0 ∧ paper_trading_mode) then none
      else
        let cooldown_active : Bool :=
          match last_signal_time with
          | some t => decide ((now - t) % 86400 < 300)
          | none => false
        if cooldown_active then none
        else
          match short_ma, long_ma with
          | some sma, some lma =>
            if sma > lma ∧ latest.close > sma then some "BUY" else none
          | _, _ => none

/-- `_combine_signals`: AI/traditional combination policy. -/
def combine_signals (bag : SettingsBag) (traditional_signal : Option String)
    (ai_signal : String) (ai_confidence : ℚ) : Option String :=
  let threshold := get_float_setting bag "ai_confidence_threshold" (6 / 10)
  if ai_confidence < threshold then traditional_signal
  else if get_bool_setting bag "ai_override_technical" false ∧ ai_confidence > 8 / 10 then
    some ai_signal
  else if get_bool_setting bag "combine_ai_with_technical" true then
    if traditional_signal = some "BUY" ∧ ai_signal = "BUY" then some "BUY"
    else if traditional_signal = some "SELL" ∧ ai_signal = "SELL" then some "SELL"
    else none
  else if ai_confidence > 7 / 10 then some ai_signal
  else traditional_signal

/-- The external inputs one `run_iteration` call observes: the fetched market
data (`none` when the fetch failed), the wall clock, the AI analysis outcome
(`none` when the AI call raised), whether `place_order` returns a trade, and
the database count of open positions. -/
structure IterEnv where
  bars : Option (List Bar)
  now : ℕ
  ai : Option (String × ℚ)
  order_ok : Bool
  open_positions : ℤ
deriving DecidableEq

/-- Observable side effects of one iteration. -/
inductive IterAction
  | fetch_bars
  | place_order (side : String) (quantity : ℚ)
deriving DecidableEq

/-- `_analyze_market`: traditional signal, optionally combined with the AI
analysis when `use_ai_analysis` is enabled; an AI failure falls back to the
traditional signal. -/
def analyze_market (s : BtcState) (env : IterEnv) (bars : List Bar) :
    Option String :=
  let long_periods := get_int_setting s.settings "long_ma_periods" 5
  if (bars.length : ℤ) < long_periods then none
  else
    let traditional := get_traditional_signal s.settings bars s.last_signal_time env.now
    if get_bool_setting s.settings "use_ai_analysis" true then
      match env.ai with
      | some (ai_signal, ai_confidence) =>
        combine_signals s.settings traditional ai_signal ai_confidence
      | none => traditional
    else traditional

/-- `_enter_position`: place the order; on a returned trade record the tracked
position with take-profit/stop-loss prices and stamp `last_signal_time`. -/
def enter_position (s : BtcState) (env : IterEnv) (side : String) (price : ℚ) :
    BtcState × List IterAction :=
  let position_size := get_float_setting s.settings "position_size" (1 / 1000)
  let acts := [IterAction.place_order side position_size]
  if env.order_ok then
    let take_profit_pct := get_float_setting s.settings "take_profit_pct" (2 / 1000)
    let stop_loss_pct := get_float_setting s.settings "stop_loss_pct" (1 / 1000)
    let pos : ScalpPosition :=
      { side := side, entry_price := price, quantity := position_size,
        timestamp := env.now,
        take_profit_price :=
          if side = "buy" then price * (1 + take_profit_pct)
          else price * (1 - take_profit_pct),
        stop_loss_price :=
          if side = "buy" then price * (1 - stop_loss_pct)
          else price * (1 + stop_loss_pct) }
    ({ s with current_position := some pos, last_signal_time := some env.now }, acts)
  else (s, acts)

/-- `_execute_signal`: skip when a position is already tracked or the open
position count reached `max_positions`; only a BUY signal opens a position. -/
def execute_signal (s : BtcState) (env : IterEnv) (signal : String) (price : ℚ) :
    BtcState × List IterAction :=
  if s.current_position.isSome then (s, [])
  else if env.open_positions ≥ get_int_setting s.settings "max_positions" 1 then
    (s, [])
  else if signal = "BUY" then enter_position s env "buy" price
  else (s, [])

/-- `_exit_position`: place the opposite order; on a returned trade clear the
tracked position. -/
def exit_position (s : BtcState) (env : IterEnv) : BtcState × List IterAction :=
  match s.current_position with
  | none => (s, [])
  | some pos =>
    let opposite := if pos.side = "buy" then "sell" else "buy"
    let acts := [IterAction.place_order opposite pos.quantity]
    if env.order_ok then ({ s with current_position := none }, acts)
    else (s, acts)

/-- `_manage_position`: exit a long position on take-profit or stop-loss. -/
def manage_position (s : BtcState) (env : IterEnv) (current_bar : Bar) :
    BtcState × List IterAction :=
  match s.current_position with
  | none => (s, [])
  | some pos =>
    if pos.side = "buy" ∧ current_bar.close ≥ pos.take_profit_price then
      exit_position s env
    else if pos.side = "buy" ∧ current_bar.close ≤ pos.stop_loss_price then
      exit_position s env
    else (s, [])

/-- `run_iteration`: one decision cycle.  When the instance is not running it
returns immediately: no data fetch, no orders, no state change.  Otherwise it
fetches bars, bails out on insufficient data, computes the signal, executes
it, then manages the (possibly just-opened) position against the latest bar. -/
def run_iteration (s : BtcState) (env : IterEnv) : BtcState × List IterAction :=
  if ¬s.is_running then (s, [])
  else
    match env.bars with
    | none => (s, [IterAction.fetch_bars])
    | some bars =>
      let lookback := get_int_setting s.settings "lookback_periods" 10
      if (bars.length : ℤ) < lookback then (s, [IterAction.fetch_bars])
      else
        match bars.getLast? with
        | none => (s, [IterAction.fetch_bars])
        | some latest =>
          let signal := analyze_market s env bars
          let step1 :=
            match signal with
            | some sig => execute_signal s env sig latest.close
            | none => (s, [])
          let step2 :=
            if step1.1.current_position.isSome then
              manage_position step1.1 env latest
            else (step1.1, [])
          (step2.1, IterAction.fetch_bars :: (step1.2 ++ step2.2))

/-! ## Strategy runtime scheduler (`services/strategy_runner.py`) -/

/-- Strategy kinds (`StrategyType`). -/
inductive StrategyType
  | btc_scalping
  | portfolio_distributor
deriving DecidableEq

/-- The `Strategy` record fields `start_strategy` reads, plus the settings the
constructed instance will see and — for the portfolio distributor — the
outcome of `initialize_strategy`. -/
structure StrategyRecord where
  is_active : Bool
  strategy_type : StrategyType
  settings : SettingsBag
  pd_init_ok : Bool
deriving DecidableEq

/-- A constructed strategy instance held in `strategy_instances`. -/
inductive StrategyInstance
  | btc (s : BtcState)
  | pd
deriving DecidableEq

/-- The runner's registries: ids with a running thread and the id-keyed
instance map. -/
structure RunnerState where
  running_strategies : List ℕ
  strategy_instances : List (ℕ × StrategyInstance)
deriving DecidableEq

/-- The runner before any strategy was started. -/
def runner_init : RunnerState :=
  { running_strategies := [], strategy_instances := [] }

/-- `_create_strategy_instance`: for the scalping kind the instance is
constructed and its `start()` is called, but the returned success flag is
discarded and the instance is returned regardless; for the distributor kind a
failed `initialize_strategy` yields `None`. -/
def create_strategy_instance (rec : StrategyRecord) : Option StrategyInstance :=
  match rec.strategy_type with
  | StrategyType.btc_scalping =>
    let inst := btc_init rec.settings
    let started := btc_start inst
    some (StrategyInstance.btc started.2)
  | StrategyType.portfolio_distributor =>
    if rec.pd_init_ok then some StrategyInstance.pd else none

/-- `start_strategy`: reject an already-running id, a missing record or an
inactive strategy; otherwise construct the instance, register it and the
thread, and report success. -/
def start_strategy (r : RunnerState) (db : ℕ → Option StrategyRecord)
    (strategy_id : ℕ) : Bool × RunnerState :=
  if strategy_id ∈ r.running_strategies then (false, r)
  else
    match db strategy_id with
    | none => (false, r)
    | some rec =>
      if ¬rec.is_active then (false, r)
      else
        match create_strategy_instance rec with
        | none => (false, r)
        | some inst =>
          (true,
           { running_strategies := strategy_id :: r.running_strategies,
             strategy_instances := (strategy_id, inst) :: r.strategy_instances })

/-! ## Backtesting service (`services/backtesting_service.py`) -/

/-- The effective configuration of `_simulate_strategy` after merging the
caller's dict over the defaults `position_size = 0.001`,
`take_profit_pct = 0.002`, `stop_loss_pct = 0.001`, `short_ma_periods = 3`,
`long_ma_periods = 5`, `min_volume = 1000`. -/
structure BtConfig where
  position_size : ℚ
  take_profit_pct : ℚ
  stop_loss_pct : ℚ
  short_ma_periods : ℤ
  long_ma_periods : ℤ
  min_volume : ℚ
deriving DecidableEq

/-- The default `_simulate_strategy` configuration. -/
def default_bt_config : BtConfig :=
  { position_size := 1 / 1000, take_profit_pct := 2 / 1000,
    stop_loss_pct := 1 / 1000, short_ma_periods := 3, long_ma_periods := 5,
    min_volume := 1000 }

/-- A bar together with its rolling `short_ma`/`long_ma` columns (the
dataframe row the simulation loop reads). -/
structure IBar where
  ts : ℕ
  close : ℚ
  volume : ℚ
  short_ma : Option ℚ
  long_ma : Option ℚ
deriving DecidableEq

/-- Dataframe row `i` after the rolling-mean columns were added. -/
def ibar_at (cfg : BtConfig) (bars : List Bar) (i : ℕ) : Option IBar :=
  (bars.get? i).map (fun b =>
    { ts := b.ts, close := b.close, volume := b.volume,
      short_ma := maAt cfg.short_ma_periods (bars.map Bar.close) i,
      long_ma := maAt cfg.long_ma_periods (bars.map Bar.close) i })

/-- The full dataframe with MA columns. -/
def with_mas (cfg : BtConfig) (bars : List Bar) : List IBar :=
  (List.range bars.length).filterMap (ibar_at cfg bars)

/-- `_check_entry_signal`: `NaN` guard on all four MA values, volume at or
above the configured minimum, then the crossover
`prev short ≤ prev long ∧ cur short > cur long ∧ close > cur short`. -/
def check_entry_signal (prev_bar current_bar : IBar) (cfg : BtConfig) :
    Option String :=
  match prev_bar.short_ma, prev_bar.long_ma,
        current_bar.short_ma, current_bar.long_ma with
  | some ps, some pl, some cs, some cl =>
    if current_bar.volume < cfg.min_volume then none
    else if ps ≤ pl ∧ cs > cl ∧ current_bar.close > cs then some "BUY"
    else none
  | _, _, _, _ => none

/-- A simulated open position. -/
structure SimPos where
  entry_time : ℕ
  entry_price : ℚ
  quantity : ℚ
deriving DecidableEq

/-- A recorded simulated trade (entry plus realized exit). -/
structure BtTrade where
  entry_time : ℕ
  exit_time : ℕ
  entry_price : ℚ
  exit_price : ℚ
  quantity : ℚ
  pnl : ℚ
  pnl_pct : ℚ
  exit_reason : String
deriving DecidableEq

/-- One equity-curve point. -/
structure EqPoint where
  ts : ℕ
  capital : ℚ
  portfolio_value : ℚ
deriving DecidableEq

/-- The running state of the simulation loop. -/
structure SimState where
  capital : ℚ
  position : Option SimPos
  trades : List BtTrade
  equity_curve : List EqPoint
deriving DecidableEq

/-- `_check_exit_condition` for a long position: take-profit when the
profit fraction reaches `take_profit_pct`, stop-loss when it falls to
`-stop_loss_pct`. -/
def check_exit_condition (pos : SimPos) (price : ℚ) (cfg : BtConfig) :
    Bool × String :=
  let profit_pct := (price - pos.entry_price) / pos.entry_price
  if profit_pct ≥ cfg.take_profit_pct then (true, "take_profit")
  else if profit_pct ≤ -cfg.stop_loss_pct then (true, "stop_loss")
  else (false, "")

/-- Close the open position at `price`, crediting only the realized P&L and
appending the trade record (`exit_reason` as given). -/
def close_position (st : SimState) (pos : SimPos) (exit_time : ℕ) (price : ℚ)
    (reason : String) : SimState :=
  let pnl := (price - pos.entry_price) * pos.quantity
  { st with
    capital := st.capital + pnl,
    position := none,
    trades := st.trades ++
      [{ entry_time := pos.entry_time, exit_time := exit_time,
         entry_price := pos.entry_price, exit_price := price,
         quantity := pos.quantity, pnl := pnl,
         pnl_pct := pnl / (pos.entry_price * pos.quantity) * 100,
         exit_reason := reason }] }

/-- One iteration of the `_simulate_strategy` loop body at the pair
`(prev_bar, current_bar)`: exit check, entry check, equity-curve append. -/
def sim_step (cfg : BtConfig) (st : SimState) (prev_bar current_bar : IBar) :
    SimState :=
  let price := current_bar.close
  let st1 :=
    match st.position with
    | some pos =>
      let ex := check_exit_condition pos price cfg
      if ex.1 then close_position st pos current_bar.ts price ex.2 else st
    | none => st
  let st2 :=
    match st1.position with
    | some _ => st1
    | none =>
      match check_entry_signal prev_bar current_bar cfg with
      | some _ =>
        let position_value := price * cfg.position_size
        if st1.capital ≥ position_value then
          { st1 with
            capital := st1.capital - position_value,
            position := some { entry_time := current_bar.ts,
                               entry_price := price,
                               quantity := cfg.position_size } }
        else st1
      | none => st1
  let portfolio_value :=
    st2.capital + (match st2.position with
                   | some pos => pos.quantity * price
                   | none => 0)
  { st2 with
    equity_curve := st2.equity_curve ++
      [{ ts := current_bar.ts, capital := st2.capital,
         portfolio_value := portfolio_value }] }

/-- The `(prev_bar, current_bar)` pairs the loop visits: indices
`long_ma_periods ≤ i < len` of the MA-extended dataframe (the loop requires
`long_ma_periods ≥ 1`, which pandas enforces for the rolling window). -/
def entry_pairs (cfg : BtConfig) (bars : List Bar) : List (IBar × IBar) :=
  let ib := with_mas cfg bars
  (ib.drop (cfg.long_ma_periods.toNat - 1)).zip (ib.drop cfg.long_ma_periods.toNat)

/-- The simulation loop over all visited pairs. -/
def sim_loop (cfg : BtConfig) (pairs : List (IBar × IBar)) (st : SimState) :
    SimState :=
  pairs.foldl (fun acc pc => sim_step cfg acc pc.1 pc.2) st

/-- Result of `_simulate_strategy`. -/
structure SimResult where
  trades : List BtTrade
  final_capital : ℚ
  equity_curve : List EqPoint
deriving DecidableEq

/-- `_simulate_strategy`: run the loop, then force-close any remaining
position at the last bar's close with reason `"backtest_end"`. -/
def simulate_strategy (bars : List Bar) (cfg : BtConfig) (initial_capital : ℚ) :
    SimResult :=
  let st0 : SimState :=
    { capital := initial_capital, position := none, trades := [],
      equity_curve := [] }
  let st := sim_loop cfg (entry_pairs cfg bars) st0
  let final :=
    match st.position, bars.getLast? with
    | some pos, some last_bar =>
      close_position st pos last_bar.ts last_bar.close "backtest_end"
    | _, _ => st
  { trades := final.trades, final_capital := final.capital,
    equity_curve := final.equity_curve }

/-! ## Enhanced backtesting service
(`services/enhanced_backtesting_service.py`) -/

/-- A Python float as seen by `np.isnan`/`np.isinf`: not-a-number, the two
infinities, or a finite value. -/
inductive PyFloat
  | nan
  | pinf
  | ninf
  | fin (q : ℚ)
deriving DecidableEq

/-- A JSON-like Python value as traversed by `_deep_sanitize_for_json`:
floats, ints, strings, booleans, datetimes, and nested lists and dicts
(lists and dicts spelled out as cons cells so the traversal is first-order
structural recursion). -/
inductive PyVal
  | vFloat (f : PyFloat)
  | vInt (n : ℤ)
  | vStr (s : String)
  | vBool (b : Bool)
  | vDatetime (iso : String)
  | vListNil
  | vListCons (head tail : PyVal)
  | vDictNil
  | vDictCons (key : String) (value rest : PyVal)
deriving DecidableEq

/-- `_deep_sanitize_for_json`: recurse through dicts and lists; replace a NaN
float by `0.0`, `+inf` by `999.99`, `-inf` by `-999.99`; render datetimes via
`isoformat`; leave every other value unchanged. -/
def deep_sanitize_for_json : PyVal → PyVal
  | PyVal.vDictNil => PyVal.vDictNil
  | PyVal.vDictCons k v r =>
    PyVal.vDictCons k (deep_sanitize_for_json v) (deep_sanitize_for_json r)
  | PyVal.vListNil => PyVal.vListNil
  | PyVal.vListCons h t =>
    PyVal.vListCons (deep_sanitize_for_json h) (deep_sanitize_for_json t)
  | PyVal.vFloat PyFloat.nan => PyVal.vFloat (PyFloat.fin 0)
  | PyVal.vFloat PyFloat.pinf => PyVal.vFloat (PyFloat.fin (99999 / 100))
  | PyVal.vFloat PyFloat.ninf => PyVal.vFloat (PyFloat.fin (-(99999 / 100)))
  | PyVal.vFloat (PyFloat.fin q) => PyVal.vFloat (PyFloat.fin q)
  | PyVal.vDatetime iso => PyVal.vStr iso
  | PyVal.vInt n => PyVal.vInt n
  | PyVal.vStr s => PyVal.vStr s
  | PyVal.vBool b => PyVal.vBool b

/-- Every float anywhere inside the value is finite (no NaN, no infinity). -/
def all_floats_finite : PyVal → Bool
  | PyVal.vFloat (PyFloat.fin _) => true
  | PyVal.vFloat _ => false
  | PyVal.vDictCons _ v r => all_floats_finite v && all_floats_finite r
  | PyVal.vListCons h t => all_floats_finite h && all_floats_finite t
  | _ => true

/-- A naive-datetime field bundle (what `pd.Timestamp` renders). -/
structure PyDatetime where
  year : ℕ
  month : ℕ
  day : ℕ
  hour : ℕ
  minute : ℕ
  second : ℕ
deriving DecidableEq

/-- The two decimal digits of `n % 100`, as `str` zero-pads components. -/
def two_digits (n : ℕ) : List Char :=
  [Nat.digitChar (n / 10 % 10), Nat.digitChar (n % 10)]

/-- The four decimal digits of `n % 10000`. -/
def four_digits (n : ℕ) : List Char :=
  two_digits (n / 100) ++ two_digits n

/-- The characters of `str(timestamp)` for a naive datetime:
`"YYYY-MM-DD HH:MM:SS"` — digits, dashes, a space and colons only. -/
def datetime_chars (t : PyDatetime) : List Char :=
  four_digits t.year ++ ['-'] ++ two_digits t.month ++ ['-'] ++ two_digits t.day
    ++ [' '] ++ two_digits t.hour ++ [':'] ++ two_digits t.minute
    ++ [':'] ++ two_digits t.second

/-- Python's `needle in hay` substring test on character lists. -/
def py_contains_sub (needle : List Char) : List Char → Bool
  | [] => needle.isEmpty
  | c :: rest => needle.isPrefixOf (c :: rest) || py_contains_sub needle rest

/-- A bar of the enhanced service's dataframe, with its datetime timestamp. -/
structure EBar where
  ts : PyDatetime
  openP : ℚ
  high : ℚ
  low : ℚ
  close : ℚ
  volume : ℚ
deriving DecidableEq

/-- The `data_source` expression of `_simulate_btc_scalping_strategy`:
`"synthetic" if "synthetic" in str(bars_data.iloc[0]['timestamp']) else
"real"` (an empty frame would raise before this point). -/
def data_source_of (bars : List EBar) : String :=
  match bars.head? with
  | some b =>
    if py_contains_sub "synthetic".toList (datetime_chars b.ts) then "synthetic"
    else "real"
  | none => "real"

/-- One hour's pseudo-random OHLCV draw of the synthetic generator (the
seeded `np.random` values, abstracted as an input stream). -/
structure OhlcvDraw where
  openP : ℚ
  high : ℚ
  low : ℚ
  close : ℚ
  volume : ℚ
deriving DecidableEq

/-- `_generate_synthetic_btc_data`: one bar per timestamp of
`pd.date_range(start, end, freq=H)` — whose first element is `start`; the
remaining hourly stamps are `later_stamps` — with OHLCV taken from the
seeded pseudo-random draw stream `draws` (`np.random.seed(42)` makes the
stream deterministic). -/
def generate_synthetic_btc_data (start : PyDatetime)
    (later_stamps : List PyDatetime) (draws : ℕ → OhlcvDraw) : List EBar :=
  (start :: later_stamps).enum.map (fun p =>
    { ts := p.2, openP := (draws p.1).openP, high := (draws p.1).high,
      low := (draws p.1).low, close := (draws p.1).close,
      volume := (draws p.1).volume })

/-- The data-selection step of `_run_btc_scalping_backtest`: when the real
fetch failed or returned fewer than 20 bars, substitute the synthetic
series. -/
def choose_bars (real_bars : Option (List EBar)) (synthetic : List EBar) :
    List EBar :=
  match real_bars with
  | none => synthetic
  | some rb => if rb.length < 20 then synthetic else rb


/-! ## Shared concrete fixtures and helper lemmas -/

/-- A flat bar with the given close price and volume. -/
def mkbar (c v : ℚ) : Bar :=
  { ts := 0, openP := c, high := c, low := c, close := c, volume := v }

/-- An eight-bar series: five flat bars then a sharp rally, ample volume.
At the final bar the short MA sits above the long MA (a *level* condition)
but the crossover happened two bars earlier. -/
def demo_bars : List Bar :=
  [mkbar 1 2000, mkbar 1 2000, mkbar 1 2000, mkbar 1 2000, mkbar 1 2000,
   mkbar 10 2000, mkbar 20 2000, mkbar 30 2000]

theorem digitChar_mod10_ne_s (n : ℕ) : Nat.digitChar (n % 10) ≠ 's' := by
  have h : n % 10 < 10 := Nat.mod_lt _ (by norm_num)
  interval_cases h' : n % 10 <;> decide

theorem two_digits_ne_s {c : Char} {n : ℕ} (h : c ∈ two_digits n) : c ≠ 's' := by
  simp only [two_digits, List.mem_cons, List.not_mem_nil, or_false] at h
  rcases h with h | h <;> subst h <;> exact digitChar_mod10_ne_s _

theorem datetime_chars_ne_s (t : PyDatetime) :
    ∀ c ∈ datetime_chars t, c ≠ 's' := by
  intro c hc
  simp only [datetime_chars, four_digits, List.append_assoc, List.mem_append,
    List.mem_singleton] at hc
  rcases hc with h|h|h|h|h|h|h|h|h|h|h|h <;>
    first
      | exact two_digits_ne_s h
      | (subst h; decide)

theorem py_contains_sub_synthetic_eq_false {hay : List Char}
    (h : ∀ c ∈ hay, c ≠ 's') :
    py_contains_sub ['s', 'y', 'n', 't', 'h', 'e', 't', 'i', 'c'] hay = false := by
  induction hay with
  | nil => rfl
  | cons c rest ih =>
    have hc : c ≠ 's' := h c (List.mem_cons_self c rest)
    have hrest : ∀ d ∈ rest, d ≠ 's' :=
      fun d hd => h d (List.mem_cons_of_mem c hd)
    show ((['s', 'y', 'n', 't', 'h', 'e', 't', 'i', 'c'] : List Char).isPrefixOf
      (c :: rest) || _) = false
    rw [ih hrest, Bool.or_false]
    show (('s' == c) && _) = false
    simp [Ne.symm hc]

/-! ## Claim theorems -/

/-- C1 (code bug): an active scalping strategy whose settings are invalid.
Its `start()` returns `False`, yet `start_strategy` — which discards the flag
returned by `start()` inside `_create_strategy_instance` — registers the
instance, spawns its loop thread, and returns `True`, where the spec requires
`startStrategy` to return false on any failure and leave nothing behind. -/
theorem c1_start_failure_still_registers :
    (btc_start (btc_init [("take_profit_pct", SettingVal.f 0)])).1 = false ∧
    start_strategy runner_init
        (fun i => if i = 1 then
          some { is_active := true, strategy_type := StrategyType.btc_scalping,
                 settings := [("take_profit_pct", SettingVal.f 0)],
                 pd_init_ok := true }
         else none) 1 =
      (true,
       { running_strategies := [1],
         strategy_instances :=
           [(1, StrategyInstance.btc
                  (btc_init [("take_profit_pct", SettingVal.f 0)]))] }) := by
  have hv : validate_settings [("take_profit_pct", SettingVal.f 0)] = false := by
    simp [validate_settings, get_float_setting, get_int_setting, get_setting]
  constructor
  · simp [btc_start, btc_init, hv]
  · simp [start_strategy, runner_init, create_strategy_instance, btc_start,
      btc_init, hv]

/-- C8: when settings validation fails, `start()` returns a failure and leaves
the freshly constructed instance stopped, and every subsequent
`run_iteration` on it is a no-op: no market-data fetch, no order placement,
no state change. -/
theorem c8_invalid_settings_block_iterations (bag : SettingsBag) (env : IterEnv)
    (h : validate_settings bag = false) :
    btc_start (btc_init bag) = (false, btc_init bag) ∧
    run_iteration (btc_init bag) env = (btc_init bag, []) := by
  constructor
  · simp [btc_start, btc_init, h]
  · simp [run_iteration, btc_init]

/-- Witness for C8 at a concrete invalid settings bag (zero take-profit). -/
theorem c8_invalid_settings_block_iterations_witness :
    validate_settings [("take_profit_pct", SettingVal.f 0)] = false ∧
    run_iteration (btc_init [("take_profit_pct", SettingVal.f 0)])
        { bars := some demo_bars, now := 0, ai := none, order_ok := true,
          open_positions := 0 } =
      (btc_init [("take_profit_pct", SettingVal.f 0)], []) := by
  have hv : validate_settings [("take_profit_pct", SettingVal.f 0)] = false := by
    simp [validate_settings, get_float_setting, get_int_setting, get_setting]
  exact ⟨hv,
    (c8_invalid_settings_block_iterations [("take_profit_pct", SettingVal.f 0)]
      { bars := some demo_bars, now := 0, ai := none, order_ok := true,
        open_positions := 0 } hv).2⟩

/-- C9 (amended): the signal cooldown is the hardcoded constant of 300 seconds
(5 minutes), not a configured duration: whenever the previous recorded signal
time lies less than 300 seconds in the past, `_get_traditional_signal` returns
no signal, for every settings bag and bar series. -/
theorem c9_cooldown_blocks_within_300s (bag : SettingsBag) (bars : List Bar)
    (t now : ℕ) (h : now - t < 300) :
    get_traditional_signal bag bars (some t) now = none := by
  have hmod : (now - t) % 86400 < 300 := by
    rw [Nat.mod_eq_of_lt (lt_trans h (by norm_num))]
    exact h
  simp only [get_traditional_signal, decide_eq_true hmod]
  split
  · rfl
  · split
    · rfl
    · simp

/-- Witness for C9's amended cooldown property at a concrete gap of 100 s. -/
theorem c9_cooldown_blocks_within_300s_witness :
    (100 : ℕ) - 0 < 300 ∧
    get_traditional_signal [] demo_bars (some 0) 100 = none :=
  ⟨by norm_num, c9_cooldown_blocks_within_300s [] demo_bars 0 100 (by norm_num)⟩

/-- Counterexample for C9 as stated: with a cooldown duration configured to 600
seconds under every plausible settings key, the signal logic still emits a BUY
only 400 seconds after the previous signal — the 300-second constant is
hardcoded and no setting is consulted, so the duration is not configurable. -/
theorem c9_counterexample_cooldown_not_configurable :
    get_traditional_signal
      [("signal_cooldown", SettingVal.i 600),
       ("signal_cooldown_seconds", SettingVal.i 600),
       ("cooldown_seconds", SettingVal.i 600)]
      demo_bars (some 0) 400 = some "BUY" := by
  simp [get_traditional_signal, get_int_setting, get_bool_setting, get_setting,
    demo_bars, mkbar, maAt]
  norm_num

/-- C5: `_deep_sanitize_for_json` leaves no NaN or infinite float anywhere in
the sanitized value — the replacement (NaN to `0.0`, `+inf` to `999.99`,
`-inf` to `-999.99`) is applied recursively through every nested list and dict
of the backtest response, so every float of the returned result is finite. -/
theorem c5_deep_sanitize_all_finite :
    (∀ v : PyVal, all_floats_finite (deep_sanitize_for_json v) = true) ∧
    deep_sanitize_for_json (PyVal.vFloat PyFloat.nan) =
      PyVal.vFloat (PyFloat.fin 0) ∧
    deep_sanitize_for_json (PyVal.vFloat PyFloat.pinf) =
      PyVal.vFloat (PyFloat.fin (99999 / 100)) ∧
    deep_sanitize_for_json (PyVal.vFloat PyFloat.ninf) =
      PyVal.vFloat (PyFloat.fin (-(99999 / 100))) := by
  refine ⟨?_, rfl, rfl, rfl⟩
  intro v
  induction v with
  | vFloat f => cases f <;> rfl
  | vInt n => rfl
  | vStr s => rfl
  | vBool b => rfl
  | vDatetime iso => rfl
  | vListNil => rfl
  | vListCons h t ih1 ih2 =>
    simp [deep_sanitize_for_json, all_floats_finite, ih1, ih2]
  | vDictNil => rfl
  | vDictCons k v r ih1 ih2 =>
    simp [deep_sanitize_for_json, all_floats_finite, ih1, ih2]

/-- C4 (code bug): with fewer than 20 real bars the engine does substitute the
seeded synthetic series instead of crashing, but the returned `data_source`
tag is `"real"`, not `"synthetic"`: the tag tests whether the string rendering
of the first timestamp contains `"synthetic"`, and a datetime renders as
digits and separators only, so the test never succeeds. -/
theorem c4_synthetic_fallback_tagged_real (start : PyDatetime)
    (later : List PyDatetime) (draws : ℕ → OhlcvDraw) (real_bars : List EBar)
    (h : real_bars.length < 20) :
    choose_bars (some real_bars) (generate_synthetic_btc_data start later draws) =
      generate_synthetic_btc_data start later draws ∧
    data_source_of (generate_synthetic_btc_data start later draws) = "real" := by
  constructor
  · simp [choose_bars, h]
  · have hhead :
        (generate_synthetic_btc_data start later draws).head? =
          some { ts := start, openP := (draws 0).openP, high := (draws 0).high,
                 low := (draws 0).low, close := (draws 0).close,
                 volume := (draws 0).volume } := by
      simp [generate_synthetic_btc_data, List.enum]
    unfold data_source_of
    rw [hhead]
    simp [py_contains_sub_synthetic_eq_false (datetime_chars_ne_s start)]

/-- Witness for C4 at a 2-bar real series and the generator started at
2024-01-01 00:00:00. -/
theorem c4_synthetic_fallback_tagged_real_witness :
    ([{ ts := ⟨2024, 1, 1, 0, 0, 0⟩, openP := 1, high := 1, low := 1,
        close := 1, volume := 1 },
      { ts := ⟨2024, 1, 1, 1, 0, 0⟩, openP := 1, high := 1, low := 1,
        close := 1, volume := 1 }] : List EBar).length < 20 ∧
    data_source_of
      (generate_synthetic_btc_data ⟨2024, 1, 1, 0, 0, 0⟩ []
        (fun _ => ⟨45000, 45000, 45000, 45000, 1000⟩)) = "real" :=
  ⟨by norm_num,
   (c4_synthetic_fallback_tagged_real ⟨2024, 1, 1, 0, 0, 0⟩ []
     (fun _ => ⟨45000, 45000, 45000, 45000, 1000⟩)
     [{ ts := ⟨2024, 1, 1, 0, 0, 0⟩, openP := 1, high := 1, low := 1,
        close := 1, volume := 1 },
      { ts := ⟨2024, 1, 1, 1, 0, 0⟩, openP := 1, high := 1, low := 1,
        close := 1, volume := 1 }] (by norm_num)).2⟩

/-- Counterexample for C2 as stated: a healthy strategy (no drawdown, no daily
loss) proposing a BUY of 200 shares at price 10 when the recomputed safe
maximum is 100 shares.  The trade is blocked, yet no critical-severity alert
is among the produced alerts — only a high-severity position-size alert — so
"blocked iff a critical alert is present" fails. -/
theorem c2_counterexample_blocked_without_critical :
    validate_trade ⟨10000, 10000, none, [], 0, 2⟩ default_limits
        OrderSide.buy 200 10 =
      (false, [⟨AlertType.position_size, Severity.high⟩]) ∧
    ∀ a ∈ (validate_trade ⟨10000, 10000, none, [], 0, 2⟩ default_limits
        OrderSide.buy 200 10).2, a.severity ≠ Severity.critical := by
  have h :
      validate_trade ⟨10000, 10000, none, [], 0, 2⟩ default_limits
          OrderSide.buy 200 10 =
        (false, [⟨AlertType.position_size, Severity.high⟩]) := by
    simp [validate_trade, check_strategy_halt_conditions, check_drawdown_limits,
      check_daily_loss_limits, check_position_concentration, get_peak_capital,
      calculate_position_size, calculate_portfolio_value, default_limits, pyInt]
    norm_num
  refine ⟨h, ?_⟩
  rw [h]
  decide

/-- Counterexample for C3 as stated: on the `demo_bars` series the live rule's
signal at the final bar is BUY (short MA above long MA, price above short MA,
volume ample), while the backtest's entry decision at the same final pair is
`None`, because `_check_entry_signal` additionally requires the crossover
`prev short MA ≤ prev long MA`, which happened two bars earlier. -/
theorem c3_counterexample_entry_rules_disagree :
    ((entry_pairs default_bt_config demo_bars).getLast?.map
      (fun pc => check_entry_signal pc.1 pc.2 default_bt_config)) = some none ∧
    get_traditional_signal [] demo_bars none 0 = some "BUY" := by
  constructor
  · simp [entry_pairs, with_mas, ibar_at, default_bt_config, demo_bars, mkbar,
      maAt, check_entry_signal, List.range_succ]
    norm_num
  · simp [get_traditional_signal, get_int_setting, get_bool_setting,
      get_setting, demo_bars, mkbar, maAt]
    norm_num

/-- Counterexample for C6 as stated: with a $10,000 portfolio,
`max_position_size = 10` and a risk-formula size of 200 shares at price 10
(a $2,000 = 20% position), the position is reduced to 100 shares ($1,000 =
10%) by the silent capital-fraction cap, and the returned alert list is
empty — no high-severity alert accompanies the clamping. -/
theorem c6_counterexample_clamp_without_alert :
    pyInt ((10000 * ((2 : ℚ) / 100)) / |10 - 9|) = 200 ∧
    calculate_position_size ⟨10000, 10000, none, [], 0, 2⟩ default_limits 10 9 =
      (100, []) := by
  constructor
  · simp [pyInt]
    norm_num
  · simp [calculate_position_size, default_limits, pyInt,
      calculate_portfolio_value]
    norm_num

/-- Counterexample for C7 as stated: today's realized loss is 3.5% of capital,
i.e. 70% of the configured 5% daily-loss limit — inside the 60%-to-80% band
where the claim demands a medium-severity alert — yet
`check_daily_loss_limits` emits no alert at all (it has no 60% tier). -/
theorem c7_counterexample_no_medium_daily_tier :
    default_limits.max_daily_loss * (6 / 10) ≤ |(-350 : ℚ) / 10000| * 100 ∧
    |(-350 : ℚ) / 10000| * 100 < default_limits.max_daily_loss * (8 / 10) ∧
    check_daily_loss_limits ⟨10000, 10000, some 10000, [], -350, 2⟩
      default_limits = [] := by
  refine ⟨?_, ?_, ?_⟩
  · rw [abs_of_nonpos (by norm_num)]
    simp [default_limits]
    norm_num
  · rw [abs_of_nonpos (by norm_num)]
    simp [default_limits]
    norm_num
  · simp [check_daily_loss_limits, default_limits]
    norm_num [abs_of_nonneg]

/-- C7 (amended): the drawdown check escalates at 60%/80%/100% of the limit
(`medium`/`high`/`critical`), but the daily-loss check only has the 80% and
100% tiers (`high`/`critical`) and emits nothing below 80% of its limit —
there is no medium tier at 60%. -/
theorem c7_threshold_tiers (st : RiskDb) (limits : RiskLimits)
    (hpeak : 0 < get_peak_capital st) (hcap : st.current_capital ≠ 0)
    (hpnl : st.daily_pnl < 0) (hmdd : 0 ≤ limits.max_drawdown)
    (hmdl : 0 ≤ limits.max_daily_loss) :
    let dd := (get_peak_capital st - st.current_capital) / get_peak_capital st * 100
    let loss := |st.daily_pnl / st.current_capital| * 100
    (limits.max_drawdown ≤ dd →
      (check_drawdown_limits st limits).map RiskAlert.severity =
        [Severity.critical]) ∧
    (limits.max_drawdown * (8 / 10) ≤ dd → dd < limits.max_drawdown →
      (check_drawdown_limits st limits).map RiskAlert.severity =
        [Severity.high]) ∧
    (limits.max_drawdown * (6 / 10) ≤ dd → dd < limits.max_drawdown * (8 / 10) →
      (check_drawdown_limits st limits).map RiskAlert.severity =
        [Severity.medium]) ∧
    (dd < limits.max_drawdown * (6 / 10) →
      (check_drawdown_limits st limits).map RiskAlert.severity = []) ∧
    (limits.max_daily_loss ≤ loss →
      (check_daily_loss_limits st limits).map RiskAlert.severity =
        [Severity.critical]) ∧
    (limits.max_daily_loss * (8 / 10) ≤ loss → loss < limits.max_daily_loss →
      (check_daily_loss_limits st limits).map RiskAlert.severity =
        [Severity.high]) ∧
    (loss < limits.max_daily_loss * (8 / 10) →
      (check_daily_loss_limits st limits).map RiskAlert.severity = []) := by
  intro dd loss
  have hdd : check_drawdown_limits st limits =
      (if dd ≥ limits.max_drawdown then
        [⟨AlertType.drawdown, Severity.critical⟩]
      else if dd ≥ limits.max_drawdown * (8 / 10) then
        [⟨AlertType.drawdown, Severity.high⟩]
      else if dd ≥ limits.max_drawdown * (6 / 10) then
        [⟨AlertType.drawdown, Severity.medium⟩]
      else []) := by
    simp only [check_drawdown_limits, if_pos hpeak]
  have hdl : check_daily_loss_limits st limits =
      (if loss ≥ limits.max_daily_loss then
        [⟨AlertType.daily_loss, Severity.critical⟩]
      else if loss ≥ limits.max_daily_loss * (8 / 10) then
        [⟨AlertType.daily_loss, Severity.high⟩]
      else []) := by
    simp only [check_daily_loss_limits, if_pos hpnl, if_neg hcap]
  refine ⟨?_, ?_, ?_, ?_, ?_, ?_, ?_⟩
  · intro h1
    rw [hdd, if_pos h1]
    rfl
  · intro h1 h2
    rw [hdd, if_neg (not_le.mpr h2), if_pos h1]
    rfl
  · intro h1 h2
    rw [hdd, if_neg (not_le.mpr (lt_of_lt_of_le h2 (by nlinarith))),
      if_neg (not_le.mpr h2), if_pos h1]
    rfl
  · intro h1
    rw [hdd, if_neg (not_le.mpr (lt_of_lt_of_le h1 (by nlinarith))),
      if_neg (not_le.mpr (lt_of_lt_of_le h1 (by nlinarith))),
      if_neg (not_le.mpr h1)]
    rfl
  · intro h1
    rw [hdl, if_pos h1]
    rfl
  · intro h1 h2
    rw [hdl, if_neg (not_le.mpr h2), if_pos h1]
    rfl
  · intro h1
    rw [hdl, if_neg (not_le.mpr (lt_of_lt_of_le h1 (by nlinarith))),
      if_neg (not_le.mpr h1)]
    rfl

/-- Witness for C7 at a concrete state: peak $10,000 and capital $9,000 give a
10% drawdown — 66% of the 15% limit, hence a single medium alert — while a
$350 daily loss on $9,000 capital is 3.89%, below 80% of the 5% limit, hence
no daily-loss alert. -/
theorem c7_threshold_tiers_witness :
    0 < get_peak_capital ⟨9000, 10000, some 10000, [], -350, 2⟩ ∧
    (check_drawdown_limits ⟨9000, 10000, some 10000, [], -350, 2⟩
      default_limits).map RiskAlert.severity = [Severity.medium] ∧
    (check_daily_loss_limits ⟨9000, 10000, some 10000, [], -350, 2⟩
      default_limits).map RiskAlert.severity = [] := by
  have hpk : get_peak_capital ⟨9000, 10000, some 10000, [], -350, 2⟩ = 10000 := by
    simp [get_peak_capital]
  have h := c7_threshold_tiers ⟨9000, 10000, some 10000, [], -350, 2⟩
    default_limits (by rw [hpk]; norm_num) (by norm_num) (by norm_num)
    (by simp [default_limits]) (by simp [default_limits])
  refine ⟨by rw [hpk]; norm_num, ?_, ?_⟩
  · exact h.2.2.1 (by rw [hpk]; simp [default_limits]; norm_num)
      (by rw [hpk]; simp [default_limits]; norm_num)
  · exact h.2.2.2.2.2.2
      (by rw [abs_of_nonpos (by norm_num)]; simp [default_limits]; norm_num)

theorem mem_check_drawdown_type {st : RiskDb} {limits : RiskLimits}
    {a : RiskAlert} (h : a ∈ check_drawdown_limits st limits) :
    a.alert_type = AlertType.drawdown := by
  simp only [check_drawdown_limits] at h
  split_ifs at h <;> simp_all

theorem mem_check_daily_shape {st : RiskDb} {limits : RiskLimits}
    {a : RiskAlert} (h : a ∈ check_daily_loss_limits st limits) :
    a.alert_type = AlertType.daily_loss ∨
      (a.alert_type = AlertType.error ∧ a.severity = Severity.medium) := by
  simp only [check_daily_loss_limits] at h
  split_ifs at h <;> simp_all

theorem mem_filterMap_ite {α : Type} {l : List α} {p : α → Prop}
    [DecidablePred p] {b : RiskAlert} {a : RiskAlert}
    (h : a ∈ l.filterMap (fun x => if p x then some b else none)) : a = b := by
  rw [List.mem_filterMap] at h
  obtain ⟨x, -, hx⟩ := h
  split_ifs at hx
  simp only [Option.some.injEq] at hx
  exact hx.symm

theorem mem_check_concentration_not_critical {st : RiskDb} {limits : RiskLimits}
    {a : RiskAlert} (h : a ∈ check_position_concentration st limits) :
    a.severity ≠ Severity.critical := by
  simp only [check_position_concentration] at h
  split_ifs at h with h1 h2
  · simp at h
  · rw [List.mem_append] at h
    rcases h with h | h
    · rw [mem_filterMap_ite h]
      decide
    · simp only [List.mem_singleton] at h
      rw [h]
      decide
  · rw [List.mem_append] at h
    rcases h with h | h
    · rw [mem_filterMap_ite h]
      decide
    · simp at h

theorem mem_position_size_alert_types {st : RiskDb} {limits : RiskLimits}
    {entry stop : ℚ} {a : RiskAlert}
    (h : a ∈ (calculate_position_size st limits entry stop).2) :
    a.alert_type = AlertType.error ∨ a.alert_type = AlertType.position_sizing ∨
      a.alert_type = AlertType.position_size := by
  simp only [calculate_position_size] at h
  split_ifs at h <;> simp_all
  rcases h with rfl | rfl <;> simp

/-- C2 (amended): a trade is blocked exactly when a critical drawdown or
critical daily-loss alert is among the produced alerts, OR the proposed BUY
quantity exceeds the recomputed safe maximum — the latter block is flagged
with a high-severity alert, not a critical one, so "blocked iff a critical
alert is present" does not hold as stated. -/
theorem c2_blocked_iff (st : RiskDb) (limits : RiskLimits) (side : OrderSide)
    (quantity : ℤ) (price : ℚ) :
    (validate_trade st limits side quantity price).1 = false ↔
      (∃ a ∈ (validate_trade st limits side quantity price).2,
        a.severity = Severity.critical ∧
        (a.alert_type = AlertType.drawdown ∨
         a.alert_type = AlertType.daily_loss)) ∨
      (side = OrderSide.buy ∧
        quantity > (calculate_position_size st limits price 0).1) := by
  simp only [validate_trade]
  by_cases h1 : (check_strategy_halt_conditions st limits).any
      (fun a => a.severity = Severity.critical) = true
  · rw [if_pos h1]
    simp only [true_iff, eq_self_iff_true]
    left
    rw [List.any_eq_true] at h1
    obtain ⟨a, ha, hdec⟩ := h1
    have hcrit : a.severity = Severity.critical := of_decide_eq_true hdec
    refine ⟨a, ha, hcrit, ?_⟩
    simp only [check_strategy_halt_conditions, List.append_assoc,
      List.mem_append] at ha
    rcases ha with ha | ha | ha
    · exact Or.inl (mem_check_drawdown_type ha)
    · rcases mem_check_daily_shape ha with h | ⟨-, hm⟩
      · exact Or.inr h
      · rw [hcrit] at hm
        exact absurd hm (by decide)
    · exact absurd hcrit (mem_check_concentration_not_critical ha)
  · rw [if_neg h1]
    by_cases h2 : side = OrderSide.buy ∧
        quantity > (calculate_position_size st limits price 0).1
    · rw [if_pos h2]
      simp only [true_iff, eq_self_iff_true]
      exact Or.inr h2
    · rw [if_neg h2]
      by_cases h3 : (check_daily_loss_limits st limits).any
          (fun a => a.alert_type = AlertType.daily_loss ∧
            a.severity = Severity.critical) = true
      · rw [if_pos h3]
        simp only [true_iff, eq_self_iff_true]
        left
        rw [List.any_eq_true] at h3
        obtain ⟨a, ha, hdec⟩ := h3
        have hp : a.alert_type = AlertType.daily_loss ∧
            a.severity = Severity.critical := of_decide_eq_true hdec
        exact ⟨a, List.mem_append_right _ ha, hp.2, Or.inr hp.1⟩
      · rw [if_neg h3]
        by_cases h4 : (check_drawdown_limits st limits).any
            (fun a => a.alert_type = AlertType.drawdown ∧
              a.severity = Severity.critical) = true
        · rw [if_pos h4]
          simp only [true_iff, eq_self_iff_true]
          left
          rw [List.any_eq_true] at h4
          obtain ⟨a, ha, hdec⟩ := h4
          have hp : a.alert_type = AlertType.drawdown ∧
              a.severity = Severity.critical := of_decide_eq_true hdec
          exact ⟨a, List.mem_append_right _ ha, hp.2, Or.inl hp.1⟩
        · rw [if_neg h4]
          simp only [Bool.true_eq_false, false_iff, not_or]
          refine ⟨?_, h2⟩
          rintro ⟨a, ha, hcrit, htype⟩
          simp only [List.append_assoc, List.mem_append] at ha
          rcases ha with ha | ha | ha
          · have hmem : a ∈ (calculate_position_size st limits price 0).2 := by
              by_cases hb : side = OrderSide.buy
              · rwa [if_pos hb] at ha
              · rw [if_neg hb] at ha
                exact absurd ha (List.not_mem_nil a)
            have hty := mem_position_size_alert_types hmem
            rcases htype with h | h <;> rcases hty with h' | h' | h' <;>
              simp_all
          · rcases htype with h | h
            · rcases mem_check_daily_shape ha with h' | ⟨h', -⟩ <;> simp_all
            · exact h3 (List.any_eq_true.mpr ⟨a, ha, decide_eq_true ⟨h, hcrit⟩⟩)
          · have hty := mem_check_drawdown_type ha
            rcases htype with h | h
            · exact h4 (List.any_eq_true.mpr ⟨a, ha, decide_eq_true ⟨hty, hcrit⟩⟩)
            · simp_all

/-- C6 (amended): with positive capital, prices and limits and non-negative
position values, `calculate_position_size` computes the risk-formula size
⌊(capital × riskPerTrade/100) / |entry − stop|⌋, silently caps it at the
capital-fraction bound ⌊capital × maxPositionSizePct/100 / entry⌋ via `min`,
and the result times the entry price never exceeds `maxPositionSizePct`
percent of total portfolio value — but the portfolio-percentage clamp that
carries the high-severity alert can never fire here (capital ≤ portfolio), so
the reduction is NOT accompanied by an alert. -/
theorem c6_position_size_formula (st : RiskDb) (limits : RiskLimits)
    (entry stop : ℚ)
    (hcap : 0 < st.current_capital) (hentry : 0 < entry) (hstop : 0 < stop)
    (hneq : entry ≠ stop) (hmaxp : 0 < limits.max_position_size)
    (hrpt : 0 ≤ st.risk_per_trade)
    (hposvals : ∀ p ∈ st.positions, 0 ≤ p.2) :
    calculate_position_size st limits entry stop =
      (if min (pyInt (st.current_capital * (st.risk_per_trade / 100) /
                |entry - stop|))
             (pyInt (st.current_capital * limits.max_position_size / 100 /
                entry)) < 1 then
        (0, [⟨AlertType.position_sizing, Severity.medium⟩])
      else
        (min (pyInt (st.current_capital * (st.risk_per_trade / 100) /
                |entry - stop|))
             (pyInt (st.current_capital * limits.max_position_size / 100 /
                entry)), [])) ∧
    ((calculate_position_size st limits entry stop).1 : ℚ) * entry ≤
      limits.max_position_size / 100 * calculate_portfolio_value st := by
  have hne : entry ≠ 0 := ne_of_gt hentry
  have hrps : (0 : ℚ) < |entry - stop| := abs_pos.mpr (sub_ne_zero.mpr hneq)
  have hsumnn : 0 ≤ (st.positions.map Prod.snd).sum := by
    apply List.sum_nonneg
    intro x hx
    rw [List.mem_map] at hx
    obtain ⟨p, hp, rfl⟩ := hx
    exact hposvals p hp
  have hport : 0 < calculate_portfolio_value st := by
    unfold calculate_portfolio_value
    linarith
  have hcaple : st.current_capital ≤ calculate_portfolio_value st := by
    unfold calculate_portfolio_value
    linarith
  have hcapfrac : (0 : ℚ) ≤ st.current_capital * limits.max_position_size /
      100 / entry := by positivity
  have hminle :
      ((min (pyInt (st.current_capital * (st.risk_per_trade / 100) /
          |entry - stop|))
        (pyInt (st.current_capital * limits.max_position_size / 100 /
          entry)) : ℤ) : ℚ) * entry ≤
      st.current_capital * limits.max_position_size / 100 := by
    have h1 : ((min (pyInt (st.current_capital * (st.risk_per_trade / 100) /
        |entry - stop|))
        (pyInt (st.current_capital * limits.max_position_size / 100 /
          entry)) : ℤ) : ℚ) ≤
        st.current_capital * limits.max_position_size / 100 / entry := by
      calc ((min (pyInt (st.current_capital * (st.risk_per_trade / 100) /
              |entry - stop|))
            (pyInt (st.current_capital * limits.max_position_size /
              100 / entry)) : ℤ) : ℚ)
          ≤ ((pyInt (st.current_capital * limits.max_position_size / 100 /
              entry) : ℤ) : ℚ) := by
            exact_mod_cast min_le_right _ _
        _ ≤ st.current_capital * limits.max_position_size / 100 / entry :=
            pyInt_le hcapfrac
    calc ((min (pyInt (st.current_capital * (st.risk_per_trade / 100) /
            |entry - stop|))
          (pyInt (st.current_capital * limits.max_position_size /
            100 / entry)) : ℤ) : ℚ) * entry
        ≤ (st.current_capital * limits.max_position_size / 100 / entry) *
            entry := mul_le_mul_of_nonneg_right h1 hentry.le
      _ = st.current_capital * limits.max_position_size / 100 :=
            div_mul_cancel₀ _ hne
  have heq : calculate_position_size st limits entry stop =
      (if min (pyInt (st.current_capital * (st.risk_per_trade / 100) /
                |entry - stop|))
             (pyInt (st.current_capital * limits.max_position_size / 100 /
                entry)) < 1 then
        (0, [⟨AlertType.position_sizing, Severity.medium⟩])
      else
        (min (pyInt (st.current_capital * (st.risk_per_trade / 100) /
                |entry - stop|))
             (pyInt (st.current_capital * limits.max_position_size / 100 /
                entry)), [])) := by
    have hc1 : stop > 0 ∧ entry > 0 := ⟨hstop, hentry⟩
    simp only [calculate_position_size, if_neg hne, if_pos hc1, if_pos hrps]
    by_cases hmin : min (pyInt (st.current_capital * (st.risk_per_trade / 100) /
          |entry - stop|))
        (pyInt (st.current_capital * limits.max_position_size / 100 /
          entry)) < 1
    · rw [if_pos hmin, if_pos hmin]
      simp
    · rw [if_neg hmin, if_neg hmin, if_pos hport]
      split_ifs with hcl
      · exfalso
        apply absurd hcl
        rw [not_lt, div_mul_eq_mul_div, div_le_iff₀ hport]
        nlinarith [hminle, mul_le_mul_of_nonneg_right hcaple hmaxp.le]
      · rfl
  refine ⟨heq, ?_⟩
  rw [heq]
  by_cases hmin : min (pyInt (st.current_capital * (st.risk_per_trade / 100) /
        |entry - stop|))
      (pyInt (st.current_capital * limits.max_position_size / 100 /
        entry)) < 1
  · rw [if_pos hmin]
    dsimp only
    rw [Int.cast_zero, zero_mul]
    positivity
  · rw [if_neg hmin]
    dsimp only
    nlinarith [hminle, mul_le_mul_of_nonneg_right hcaple hmaxp.le]

/-- Witness for C6 at the end-to-end scenario: $10,000 capital and portfolio,
`max_position_size = 10`, `risk_per_trade = 2`, entry 10, stop 9: the risk
formula proposes 200 shares ($2,000 = 20%), the capital cap reduces it to 100
shares ($1,000 = 10%), and the $1,000 value is within 10% of the portfolio. -/
theorem c6_position_size_formula_witness :
    calculate_position_size ⟨10000, 10000, none, [], 0, 2⟩ default_limits 10 9 =
      (100, []) ∧
    ((calculate_position_size ⟨10000, 10000, none, [], 0, 2⟩ default_limits
        10 9).1 : ℚ) * 10 ≤
      default_limits.max_position_size / 100 *
        calculate_portfolio_value ⟨10000, 10000, none, [], 0, 2⟩ := by
  have h := c6_position_size_formula ⟨10000, 10000, none, [], 0, 2⟩
    default_limits 10 9 (by norm_num) (by norm_num) (by norm_num)
    (by norm_num) (by simp [default_limits]) (by norm_num)
    (by simp)
  refine ⟨?_, h.2⟩
  rw [h.1]
  norm_num [pyInt, default_limits]

/-- The entry principal still tied up in an open simulated position. -/
def pos_principal : Option SimPos → ℚ
  | some pos => pos.entry_price * pos.quantity
  | none => 0

/-- Sum of entry principals over recorded trades. -/
def trades_principal (l : List BtTrade) : ℚ :=
  (l.map (fun t => t.entry_price * t.quantity)).sum

/-- Sum of realized P&L over recorded trades. -/
def trades_pnl (l : List BtTrade) : ℚ :=
  (l.map BtTrade.pnl).sum

/-- The cash-accounting invariant of the simulation loop: cash plus the open
position's entry principal plus all recorded entry principals minus all
recorded P&L equals the initial capital. -/
def sim_inv (initial : ℚ) (st : SimState) : Prop :=
  st.capital + pos_principal st.position + trades_principal st.trades -
    trades_pnl st.trades = initial

theorem close_position_inv {initial : ℚ} {st : SimState} {pos : SimPos}
    {exit_time : ℕ} {price : ℚ} {reason : String}
    (hpos : st.position = some pos) (h : sim_inv initial st) :
    sim_inv initial (close_position st pos exit_time price reason) := by
  unfold sim_inv close_position trades_principal trades_pnl at *
  rw [hpos] at h
  simp only [List.map_append, List.sum_append, pos_principal] at *
  simp only [List.map_cons, List.map_nil, List.sum_cons, List.sum_nil]
  linarith

theorem sim_step_inv {initial : ℚ} (cfg : BtConfig) {st : SimState}
    (prev_bar current_bar : IBar) (h : sim_inv initial st) :
    sim_inv initial (sim_step cfg st prev_bar current_bar) := by
  have hwrap : ∀ (st2 : SimState) (e : List EqPoint),
      sim_inv initial st2 → sim_inv initial { st2 with equity_curve := e } :=
    fun st2 e h2 => h2
  have hentry : ∀ st1 : SimState, st1.position = none → sim_inv initial st1 →
      sim_inv initial
        (if st1.capital ≥ current_bar.close * cfg.position_size then
          { st1 with
            capital := st1.capital - current_bar.close * cfg.position_size,
            position := some { entry_time := current_bar.ts,
                               entry_price := current_bar.close,
                               quantity := cfg.position_size } }
         else st1) := by
    intro st1 hp h1
    split
    · unfold sim_inv at h1 ⊢
      rw [hp] at h1
      dsimp only
      simp only [pos_principal] at h1 ⊢
      linarith
    · exact h1
  simp only [sim_step]
  apply hwrap
  rcases hp : st.position with _ | pos
  · simp only [hp]
    cases hsig : check_entry_signal prev_bar current_bar cfg with
    | none => exact h
    | some sig => exact hentry st hp h
  · simp only [hp]
    by_cases hex : (check_exit_condition pos current_bar.close cfg).1 = true
    · rw [if_pos hex]
      have hcl := @close_position_inv initial st pos current_bar.ts
        current_bar.close (check_exit_condition pos current_bar.close cfg).2
        hp h
      have hposnone : (close_position st pos current_bar.ts current_bar.close
          (check_exit_condition pos current_bar.close cfg).2).position =
        none := rfl
      simp only [hposnone]
      cases hsig : check_entry_signal prev_bar current_bar cfg with
      | none => exact hcl
      | some sig => exact hentry _ hposnone hcl
    · rw [if_neg hex]
      simp only [hp]
      exact h

theorem sim_loop_inv {initial : ℚ} (cfg : BtConfig)
    (pairs : List (IBar × IBar)) {st : SimState} (h : sim_inv initial st) :
    sim_inv initial (sim_loop cfg pairs st) := by
  induction pairs generalizing st with
  | nil => exact h
  | cons pc rest ih => exact ih (sim_step_inv cfg pc.1 pc.2 h)

/-- C10 (implicit claim): opening a simulated position deducts the full entry
principal from cash while closing credits back only the realized P&L, so the
reported final capital equals the initial capital minus the sum of all entry
principals plus the sum of all recorded trade P&Ls — for every bar series,
configuration and initial capital. -/
theorem c10_final_capital_accounting (bars : List Bar) (cfg : BtConfig)
    (initial_capital : ℚ) :
    (simulate_strategy bars cfg initial_capital).final_capital =
      initial_capital -
        trades_principal (simulate_strategy bars cfg initial_capital).trades +
        trades_pnl (simulate_strategy bars cfg initial_capital).trades := by
  unfold simulate_strategy
  have h0 : sim_inv initial_capital
      { capital := initial_capital, position := none, trades := [],
        equity_curve := [] } := by
    simp [sim_inv, pos_principal, trades_principal, trades_pnl]
  have hloop := sim_loop_inv cfg (entry_pairs cfg bars) h0
  rcases hpos : (sim_loop cfg (entry_pairs cfg bars)
      { capital := initial_capital, position := none, trades := [],
        equity_curve := [] }).position with _ | pos
  · rcases hlast : bars.getLast? with _ | last_bar
    · simp only [hpos, hlast]
      unfold sim_inv at hloop
      rw [hpos] at hloop
      simp only [pos_principal] at hloop
      linarith
    · simp only [hpos, hlast]
      unfold sim_inv at hloop
      rw [hpos] at hloop
      simp only [pos_principal] at hloop
      linarith
  · rcases hlast : bars.getLast? with _ | last_bar
    · exfalso
      have hb : bars = [] := List.getLast?_eq_none_iff.mp hlast
      subst hb
      have : entry_pairs cfg [] = [] := by
        simp [entry_pairs, with_mas]
      rw [this] at hpos
      simp [sim_loop] at hpos
    · have hclosed := @close_position_inv initial_capital _ pos last_bar.ts
        last_bar.close "backtest_end" hpos hloop
      simp only [hpos, hlast]
      unfold sim_inv at hclosed
      simp only [close_position, pos_principal] at hclosed ⊢
      linarith

theorem maAt_bounds {k : ℤ} {closes : List ℚ} {i : ℕ} {x : ℚ}
    (h : maAt k closes i = some x) :
    0 < k ∧ k.toNat ≤ i + 1 ∧ i < closes.length := by
  unfold maAt at h
  split_ifs at h with h1 h2
  rcases not_or.mp h2 with ⟨ha, hb⟩
  exact ⟨by omega, by omega, by omega⟩

theorem maAt_take {k : ℤ} {closes : List ℚ} {i : ℕ} (hi : i < closes.length) :
    maAt k (closes.take (i + 1)) i = maAt k closes i := by
  have hcond : ((closes.take (i + 1)).length ≤ i) ↔ (closes.length ≤ i) := by
    rw [List.length_take]
    omega
  unfold maAt
  simp only [hcond, List.take_take, min_self]

theorem getLast?_take_of_lt {α : Type} (l : List α) (i : ℕ) (h : i < l.length) :
    (l.take (i + 1)).getLast? = l.get? i := by
  rw [List.getLast?_eq_getElem?]
  have hmin : (i + 1) ⊓ l.length = i + 1 := by omega
  simp only [List.length_take, hmin, Nat.add_sub_cancel]
  rw [List.getElem?_take_of_lt (by omega)]
  exact (List.get?_eq_getElem? l i).symm

theorem ibar_at_elim {cfg : BtConfig} {bars : List Bar} {i : ℕ} {cur : IBar}
    (h : ibar_at cfg bars i = some cur) :
    ∃ b, bars.get? i = some b ∧ cur =
      { ts := b.ts, close := b.close, volume := b.volume,
        short_ma := maAt cfg.short_ma_periods (bars.map Bar.close) i,
        long_ma := maAt cfg.long_ma_periods (bars.map Bar.close) i } := by
  unfold ibar_at at h
  cases hb : bars.get? i with
  | none =>
    rw [hb] at h
    simp at h
  | some b =>
    rw [hb] at h
    exact ⟨b, rfl, (Option.some.inj h).symm⟩

/-- C3 (amended): the backtest entry rule refines the live rule one way only.
Whenever `_check_entry_signal` fires BUY at bar `i` of the series (with
matching MA windows and minimum volume between the settings bag and the
backtest config, a positive minimum volume, and no cooldown active), the live
`_get_traditional_signal` on the series up to bar `i` also returns BUY; the
converse fails because the backtest additionally requires the crossover
`prev short MA ≤ prev long MA` (see the C3 counterexample). -/
theorem c3_backtest_entry_refines_live
    (bag : SettingsBag) (cfg : BtConfig) (bars : List Bar) (i now : ℕ)
    (prev_bar current_bar : IBar)
    (hs : get_int_setting bag "short_ma_periods" 3 = cfg.short_ma_periods)
    (hl : get_int_setting bag "long_ma_periods" 5 = cfg.long_ma_periods)
    (hm : ((get_int_setting bag "min_volume" 1000 : ℤ) : ℚ) = cfg.min_volume)
    (hmpos : 0 < cfg.min_volume)
    (_hprev : ibar_at cfg bars (i - 1) = some prev_bar)
    (hcur : ibar_at cfg bars i = some current_bar)
    (hbuy : check_entry_signal prev_bar current_bar cfg = some "BUY") :
    get_traditional_signal bag (bars.take (i + 1)) none now = some "BUY" := by
  obtain ⟨b, hb, hc⟩ := ibar_at_elim hcur
  subst hc
  unfold check_entry_signal at hbuy
  split at hbuy
  next ps pl cs cl hps hpl hcs hcl =>
    dsimp only at hcs hcl
    split_ifs at hbuy with hvol hcond
    obtain ⟨hks, hksle, hilenc⟩ := maAt_bounds hcs
    obtain ⟨hkl, hklle, -⟩ := maAt_bounds hcl
    have hilen : i < bars.length := by
      have h' := hilenc
      rwa [List.length_map] at h'
    have hvol' : ¬(b.volume < cfg.min_volume) := hvol
    have hbne : ¬(b.volume = 0) := by
      intro h0
      have hge := not_lt.mp hvol'
      rw [h0] at hge
      exact absurd hmpos (not_lt.mpr hge)
    have hlast : (bars.take (i + 1)).getLast? = some b := by
      rw [getLast?_take_of_lt bars i hilen]
      exact hb
    have hmap : (bars.take (i + 1)).map Bar.close =
        (bars.map Bar.close).take (i + 1) := List.map_take Bar.close bars (i + 1)
    have hlen2 : (bars.take (i + 1)).length = i + 1 := by
      simp [List.length_take]
      omega
    have hkpos : ¬(cfg.short_ma_periods ≤ 0 ∨ cfg.long_ma_periods ≤ 0) := by
      omega
    have hc1 : cs > cl := hcond.2.1
    have hc2 : b.close > cs := hcond.2.2
    unfold get_traditional_signal
    simp [hs, hl, hkpos, hlast, hmap, hlen2, Nat.add_sub_cancel,
      maAt_take hilenc, hcs, hcl, hm, hvol', hbne, hc1, hc2]
  next =>
    exact absurd hbuy (by simp)

/-- A seven-bar series that crosses over at the final bar: six flat bars at 10
then a close at 25, ample volume everywhere. -/
def crossover_bars : List Bar :=
  [mkbar 10 2000, mkbar 10 2000, mkbar 10 2000, mkbar 10 2000, mkbar 10 2000,
   mkbar 10 2000, mkbar 25 2000]

/-- Witness for C3's amended refinement at the crossover series: the backtest
entry rule fires at the final bar and the live rule on the same prefix
returns BUY as well. -/
theorem c3_backtest_entry_refines_live_witness :
    check_entry_signal
        { ts := 0, close := 10, volume := 2000, short_ma := some 10,
          long_ma := some 10 }
        { ts := 0, close := 25, volume := 2000, short_ma := some 15,
          long_ma := some 13 } default_bt_config = some "BUY" ∧
    get_traditional_signal [] (crossover_bars.take (6 + 1)) none 0 =
      some "BUY" := by
  have hprev : ibar_at default_bt_config crossover_bars (6 - 1) =
      some { ts := 0, close := 10, volume := 2000, short_ma := some 10,
             long_ma := some 10 } := by
    simp [ibar_at, crossover_bars, mkbar, maAt, default_bt_config]
    norm_num
  have hcur : ibar_at default_bt_config crossover_bars 6 =
      some { ts := 0, close := 25, volume := 2000, short_ma := some 15,
             long_ma := some 13 } := by
    simp [ibar_at, crossover_bars, mkbar, maAt, default_bt_config]
    norm_num
  have hbuy : check_entry_signal
      { ts := 0, close := 10, volume := 2000, short_ma := some 10,
        long_ma := some 10 }
      { ts := 0, close := 25, volume := 2000, short_ma := some 15,
        long_ma := some 13 } default_bt_config = some "BUY" := by
    simp [check_entry_signal, default_bt_config]
    norm_num
  refine ⟨hbuy, ?_⟩
  exact c3_backtest_entry_refines_live [] default_bt_config crossover_bars 6 0
    _ _ (by simp [get_int_setting, get_setting, default_bt_config])
    (by simp [get_int_setting, get_setting, default_bt_config])
    (by simp [get_int_setting, get_setting, default_bt_config])
    (by simp [default_bt_config]) hprev hcur hbuy
